import Mathlib

/-!
Shallow embedding of the Madrid-pollution-2019-2020 repository
(src/scripts/pollution_data_cleaning.py, src/notebooks/covid19_pollution_func.py,
src/scripts/covid19_pollution_func.py) and proofs about its claims.

Dataframes are embedded as Lean lists of typed rows.  Numeric cells are
rationals; dates are component records, mirroring that the code only ever
reads the year, month, day and hour components of pandas timestamps.
-/

namespace Madrid

/-- Date as produced by pd.to_datetime from the ano, mes, dia columns of the
raw data; the code only accesses the year, month and day components. -/
structure Date where
  year : Int
  month : Int
  day : Int
deriving DecidableEq, Repr

/-- Timestamp as produced by datetime.datetime(year, month, day, hour) in
columns_to_datetime. -/
structure DateTime where
  year : Int
  month : Int
  day : Int
  hour : Nat
deriving DecidableEq, Repr

/-- A row of the dataframe handed to columns_to_datetime: columns
contaminante, estacion, fecha and the 24 hourly value columns h01..h24;
hvals i is the cell of column h(i+1), for i in 0..23.  Hourly cells are
modelled as present numeric values. -/
structure WideRow where
  contaminante : String
  estacion : Int
  fecha : Date
  hvals : Nat → ℚ

/-- A row of the long-format dataframe built by columns_to_datetime:
columns contaminante, estacion, dt and concentracion. -/
structure LongRow where
  contaminante : String
  estacion : Int
  dt : DateTime
  concentracion : ℚ
deriving DecidableEq, Repr

/-- The long row built from wide row r and hour column h (h in 1..24):
columns contaminante, estacion are carried over, dt is
datetime.datetime(fecha.year, fecha.month, fecha.day, h % 24), and
concentracion is the value of column h0h (cell index h-1). -/
def hourRow (h : Nat) (r : WideRow) : LongRow :=
  { contaminante := r.contaminante
    estacion := r.estacion
    dt := ⟨r.fecha.year, r.fecha.month, r.fecha.day, h % 24⟩
    concentracion := r.hvals (h - 1) }

/-- Comparison used to model sort_values on the dt column: lexicographic
order on the timestamp components. -/
def dtLe (a b : DateTime) : Bool :=
  if a.year = b.year then
    if a.month = b.month then
      if a.day = b.day then a.hour ≤ b.hour
      else a.day ≤ b.day
    else a.month ≤ b.month
  else a.year ≤ b.year

/-- Insertion of an element into a list sorted by le, keeping it behind
equal keys already present. -/
def insertSorted (le : α → α → Bool) (x : α) : List α → List α
  | [] => [x]
  | y :: ys => if le x y then x :: y :: ys else y :: insertSorted le x ys

/-- Stable sort by le, modelling DataFrame.sort_values: the output is a
permutation of the input ordered by the key. -/
def sortBy (le : α → α → Bool) (l : List α) : List α :=
  l.foldr (insertSorted le) []

/-- Body of columns_to_datetime: for each hour column h01..h24 a per-hour
frame df.map (hourRow h) is built (select columns, append the dt column,
drop fecha, rename the value column), the 24 frames are concatenated in
hour order, and the result is sorted by dt (reset_index 'drop' leaves the
row list unchanged in this embedding).  The initial reindex over sorted
column names does not change any row in a row-typed embedding. -/
def ctd_body (df : List WideRow) : List LongRow :=
  sortBy (fun a b => dtLe a.dt b.dt)
    (((List.range' 1 24).map (fun h => df.map (hourRow h))).flatten)

/-- columns_to_datetime including its assert: the sorted concatenation is
returned only when it has exactly 24 times as many rows as the input;
otherwise an AssertionError propagates. -/
def columns_to_datetime (df : List WideRow) : Except String (List LongRow) :=
  let new_df := ctd_body df
  if new_df.length = 24 * df.length then .ok new_df else .error "AssertionError"

/-- A row of the raw CSV data after dropping the unused administrative and
validation columns (PUNTO_MUESTREO, PROVINCIA, MUNICIPIO, v01..v24):
estacion, magnitud, ano, mes, dia and the 24 hourly values. -/
structure RawRow where
  estacion : Int
  magnitud : Int
  ano : Int
  mes : Int
  dia : Int
  hvals : Nat → ℚ

/-- A raw row after the fecha column is assembled and the contaminante
column is computed; contaminante none models the NaN produced for the
codes listed in not_used. -/
structure TaggedRow where
  contaminante : Option String
  estacion : Int
  fecha : Date
  hvals : Nat → ℚ

/-- The used dictionary of clean_data: magnitude code to pollutant name. -/
def used : List (Int × String) :=
  [(1, "SO2"), (6, "CO"), (8, "NO2"), (9, "PM2.5"), (10, "PM10"), (14, "O3")]

/-- The not_used codes of clean_data, mapped to np.nan. -/
def not_used : List Int := [7, 12, 20, 30, 35, 42, 43, 44]

/-- Lookup in pollutants_dict = the merge of used and not_used: none models
a KeyError (code absent from the dict), some none models the NaN value,
some (some name) a pollutant name. -/
def pollutants_dict (x : Int) : Option (Option String) :=
  match used.find? (fun p => p.1 == x) with
  | some p => some (some p.2)
  | none => if x ∈ not_used then some none else none

/-- The TaggedRow built from a raw row once its dictionary value is known:
fecha is assembled from ano, mes, dia as under pd.to_datetime. -/
def mkTagged (r : RawRow) (c : Option String) : TaggedRow :=
  { contaminante := c
    estacion := r.estacion
    fecha := ⟨r.ano, r.mes, r.dia⟩
    hvals := r.hvals }

/-- The apply of pollutants_dict over the magnitud column: evaluated row by
row, raising KeyError at the first code absent from the dictionary, as
Series.apply with a plain dict lookup does. -/
def applyPollutants : List RawRow → Except String (List TaggedRow)
  | [] => .ok []
  | r :: rs =>
    match pollutants_dict r.magnitud with
    | none => .error ("KeyError: " ++ toString r.magnitud)
    | some c => (applyPollutants rs).map (fun ts => mkTagged r c :: ts)

/-- dropna: rows whose contaminante is NaN are removed (hourly cells are
modelled as present, so contaminante is the only column that can be
missing here); the survivors are wide rows with a definite name. -/
def dropnaRows (rows : List TaggedRow) : List WideRow :=
  rows.filterMap (fun r =>
    r.contaminante.map (fun c =>
      { contaminante := c
        estacion := r.estacion
        fecha := r.fecha
        hvals := r.hvals }))

/-- The dataframe of clean_data just before columns_to_datetime: the rows
surviving dropna, with the Avda. La Guardia station (estacion 54) removed. -/
def filtered_rows (tagged : List TaggedRow) : List WideRow :=
  (dropnaRows tagged).filter (fun r => r.estacion != 54)

/-- clean_data: the per-file row lists are concatenated, the contaminante
column is computed from the magnitud codes, NaN rows are dropped, station
54 is removed, and columns_to_datetime reshapes the result. -/
def clean_data (csv_list : List (List RawRow)) : Except String (List LongRow) :=
  (applyPollutants csv_list.flatten).bind
    (fun tagged => columns_to_datetime (filtered_rows tagged))

/-- First-occurrence deduplication, the order Series.unique uses. -/
def uniqueFirst [BEq α] (l : List α) : List α :=
  l.foldl (fun acc x => if acc.contains x then acc else acc ++ [x]) []

/-- One output CSV of create_pollutant_csvs: its filename carries a
pollutant name and a year, its rows are indexed by dt and keep the
estacion and concentracion columns (only contaminante is dropped). -/
structure CsvFile where
  pollutant : String
  year : Int
  rows : List (DateTime × Int × ℚ)
deriving DecidableEq, Repr

/-- create_pollutant_csvs: year is the first element of the unique years of
the dt column (an IndexError on an empty frame); then for each pollutant,
in first-occurrence order, one file named pollutant-year is written holding
that pollutant's rows with the contaminante column dropped and dt as
index. -/
def create_pollutant_csvs (clean_df : List LongRow) : Except String (List CsvFile) :=
  match uniqueFirst (clean_df.map (fun r => r.dt.year)) with
  | [] => .error "IndexError"
  | year :: _ =>
    .ok ((uniqueFirst (clean_df.map (fun r => r.contaminante))).map (fun p =>
      { pollutant := p
        year := year
        rows := (clean_df.filter (fun r => r.contaminante == p)).map
          (fun r => (r.dt, r.estacion, r.concentracion)) }))

/-! traj_matrix_SVD (src/notebooks/covid19_pollution_func.py): only the
trajectory-matrix construction up to its shape assert is embedded; the SVD
call after the assert is an external library routine the claims do not
touch. -/

/-- The list A built by the loop of traj_matrix_SVD: for i in
range(len(X) - window), the slice X[i:i+window] (Python range over a
non-positive bound is empty, matching Nat subtraction). -/
def trajRows (X : List ℚ) (window : Nat) : List (List ℚ) :=
  (List.range (X.length - window)).map (fun i => (X.drop i).take window)

/-- Transpose of np.array of a list of rows: the empty list gives the
shape-(0,) array, whose transpose is itself; a nonempty rectangular list
gives the usual transpose. -/
def npT (A : List (List ℚ)) : List (List ℚ) :=
  match A with
  | [] => []
  | r :: rs => (List.range r.length).map (fun j => (r :: rs).map (fun row => row.getD j 0))

/-- Shape of np.array of a list of rows, as the list of dimensions with
Int entries (the assert compares it against a tuple of Python ints, and
col = len(X) - window can be negative there): the empty list is the
shape-(0,) array, a nonempty rectangular list has shape (rows, cols). -/
def npShape (A : List (List ℚ)) : List Int :=
  match A with
  | [] => [0]
  | r :: rs => [((r :: rs).length : Int), (r.length : Int)]

/-- The assert of traj_matrix_SVD: A.shape == (window, col) after the
transpose, with col the Python int len(X) - window. -/
def trajAssert (X : List ℚ) (window : Nat) : Prop :=
  npShape (npT (trajRows X window)) = [(window : Int), (X.length : Int) - (window : Int)]

instance (X : List ℚ) (window : Nat) : Decidable (trajAssert X window) := by
  unfold trajAssert; infer_instance

/-! poincare_plot (identical in src/notebooks/covid19_pollution_func.py and
src/scripts/covid19_pollution_func.py): the matplotlib effects are embedded
as a trace of plot actions; legend-label string formatting is elided, the
regression parameters are carried in the action instead. -/

/-- One matplotlib effect of poincare_plot, on panel 0 (before) or 1
(after). -/
inductive PlotAct where
  | scatter (panel : Nat) (xs ys : List ℚ)
  | regLine (panel : Nat) (b0 b1 : ℚ)
  | identLine (panel : Nat)
  | legend (panel : Nat)
  | setTitle (panel : Nat) (t : Option String)
  | setXLabel (panel : Nat)
  | setYLabel (panel : Nat)
deriving DecidableEq, Repr

/-- poincare_plot: returns the trace of plot actions performed and, when
the function raises, the error with the actions performed before it.  The
tuple unpacking of reg_params_bf and reg_params_aft happens first; a None
argument raises TypeError there, before any plotting.  The later branches
re-check the same arguments against None, as the source does. -/
def poincare_plot (bf aft : List (ℚ × ℚ)) (reg_params_bf reg_params_aft : Option (ℚ × ℚ))
    (bf_title aft_title : Option String) : List PlotAct × Option String :=
  match reg_params_bf with
  | none => ([], some "TypeError: cannot unpack non-iterable NoneType object")
  | some (b0_bf, b1_bf) =>
    match reg_params_aft with
    | none => ([], some "TypeError: cannot unpack non-iterable NoneType object")
    | some (b0_aft, b1_aft) =>
      let bf_orig := bf.map Prod.fst
      let bf_shift := bf.map Prod.snd
      let aft_orig := aft.map Prod.fst
      let aft_shift := aft.map Prod.snd
      ([PlotAct.scatter 0 bf_orig bf_shift, PlotAct.scatter 1 aft_orig aft_shift]
        ++ (if (some (b0_bf, b1_bf) : Option (ℚ × ℚ)).isSome then
              [PlotAct.regLine 0 b0_bf b1_bf, PlotAct.identLine 0, PlotAct.legend 0]
            else [])
        ++ (if (some (b0_aft, b1_aft) : Option (ℚ × ℚ)).isSome then
              [PlotAct.regLine 1 b0_aft b1_aft, PlotAct.identLine 1, PlotAct.legend 1]
            else [])
        ++ [PlotAct.setTitle 0 bf_title, PlotAct.setTitle 1 aft_title,
            PlotAct.setXLabel 0, PlotAct.setYLabel 0, PlotAct.setXLabel 1, PlotAct.setYLabel 1],
       none)

/-! Store model for the frame-effect claim about columns_to_datetime: each
pandas call of the function is recorded as either allocating a fresh frame
derived from existing ones (reindex, column selection, pd.concat,
sort_values, reset_index) or modifying a frame in place (the dt column
assignment, drop with inplace=True, rename with inplace=True).  Frame ids
are indices into a store; the content type F and the per-call content
transformations are kept abstract, since which slot a call writes to is
all the claim depends on. -/

/-- One pandas call, classified by its effect on the store of frames. -/
inductive PdOp (F : Type) where
  | fresh (srcs : List Nat) (f : List F → F)
  | inplace (tgt : Nat) (f : F → F)

/-- Run a sequence of pandas calls over a store of frames: a fresh call
appends the new frame at the next id, an inplace call overwrites its
target slot. -/
def runOps [Inhabited F] : List (PdOp F) → List F → List F
  | [], s => s
  | PdOp.fresh srcs f :: rest, s =>
    runOps rest (s ++ [f (srcs.map (fun i => s.getD i default))])
  | PdOp.inplace t f :: rest, s => runOps rest (s.set t (f (s.getD t default)))

/-- True when the call does not write slot 0 in place. -/
def notInplaceZero : PdOp F → Bool
  | PdOp.inplace 0 _ => false
  | _ => true

/-- The calls of columns_to_datetime in source order, with the caller's
dataframe at id 0: df = df.reindex(...) allocates id 1; iteration k of the
hour loop allocates df_hour = df[columns] at id k+2 (pandas column-list
selection returns a copy of the reindexed frame at id 1 - and were it a
view, its base would still be id 1, never id 0) and then writes id k+2 in
place three times (the dt assignment, drop of fecha, rename of the value
column); pd.concat of ids 2..25 allocates id 26, sort_values id 27 and
reset_index id 28, which is returned. -/
def columns_to_datetime_ops (reindex : List F → F) (select : Nat → List F → F)
    (assign_dt : Nat → F → F) (drop_fecha : F → F) (rename_conc : F → F)
    (concat : List F → F) (sort_dt : List F → F) (reset_index : List F → F) :
    List (PdOp F) :=
  PdOp.fresh [0] reindex ::
    ((List.range 24).flatMap (fun k =>
      [PdOp.fresh [1] (select k),
       PdOp.inplace (k + 2) (assign_dt k),
       PdOp.inplace (k + 2) drop_fecha,
       PdOp.inplace (k + 2) rename_conc]))
    ++ [PdOp.fresh (List.range' 2 24) concat,
        PdOp.fresh [26] sort_dt,
        PdOp.fresh [27] reset_index]

/-! Concrete rows used in counterexamples and witnesses. -/

/-- A raw row with the known SO2 code 1 at station 3. -/
def raw_SO2 : RawRow := ⟨3, 1, 2019, 1, 1, fun _ => 0⟩

/-- A raw row whose magnitude code 2 is absent from pollutants_dict. -/
def raw_code2 : RawRow := ⟨3, 2, 2019, 1, 1, fun _ => 0⟩

/-- A raw row with code 7, present in the dictionary but mapped to NaN. -/
def raw_code7 : RawRow := ⟨3, 7, 2019, 1, 1, fun _ => 0⟩

/-- A raw row with a known code at the excluded station 54. -/
def raw_st54 : RawRow := ⟨54, 1, 2019, 1, 1, fun _ => 0⟩

/-- The wide row that clean_data builds from raw_SO2. -/
def wide_SO2 : WideRow := ⟨"SO2", 3, ⟨2019, 1, 1⟩, fun _ => 0⟩

/-- A wide row with distinct hourly values, for the hour-column claims. -/
def wide_ex : WideRow := ⟨"NO2", 8, ⟨2020, 3, 14⟩, fun i => (i : ℚ)⟩

/-- A long row of pollutant NO2 in 2019. -/
def no2_2019 : LongRow := ⟨"NO2", 3, ⟨2019, 1, 1, 0⟩, 5⟩

/-- A long row of pollutant NO2 in 2020. -/
def no2_2020 : LongRow := ⟨"NO2", 3, ⟨2020, 1, 1, 0⟩, 5⟩

/-! Helper lemmas on the reshape. -/

/-- Inserting one element grows the length by one. -/
lemma length_insertSorted (le : α → α → Bool) (x : α) (l : List α) :
    (insertSorted le x l).length = l.length + 1 := by
  induction l with
  | nil => rfl
  | cons y ys ih =>
    rw [insertSorted]
    by_cases h : le x y = true <;> simp [h, ih]

/-- Membership is preserved by insertion. -/
lemma mem_insertSorted (le : α → α → Bool) (x a : α) (l : List α) :
    a ∈ insertSorted le x l ↔ a = x ∨ a ∈ l := by
  induction l with
  | nil => simp [insertSorted]
  | cons y ys ih =>
    rw [insertSorted]
    by_cases h : le x y = true
    · simp [h]
    · rw [if_neg h]
      simp only [List.mem_cons, ih]
      tauto

/-- Sorting preserves length. -/
lemma length_sortBy (le : α → α → Bool) (l : List α) :
    (sortBy le l).length = l.length := by
  induction l with
  | nil => rfl
  | cons y ys ih =>
    rw [sortBy, List.foldr_cons, length_insertSorted]
    simpa [sortBy] using ih

/-- Sorting preserves membership. -/
lemma mem_sortBy (le : α → α → Bool) (a : α) (l : List α) :
    a ∈ sortBy le l ↔ a ∈ l := by
  induction l with
  | nil => simp [sortBy]
  | cons y ys ih =>
    rw [sortBy, List.foldr_cons, mem_insertSorted]
    simp only [sortBy] at ih
    simp [ih]

/-- The reshaped frame always has 24 times the rows of its input. -/
lemma ctd_length (df : List WideRow) : (ctd_body df).length = 24 * df.length := by
  simp only [ctd_body, length_sortBy, List.length_flatten, List.map_map,
    Function.comp_def, List.length_map, List.map_const', List.sum_replicate,
    List.length_range', smul_eq_mul]

/-- The assert in columns_to_datetime never fires. -/
lemma columns_to_datetime_ok (df : List WideRow) :
    columns_to_datetime df = .ok (ctd_body df) := by
  simp [columns_to_datetime, ctd_length]

/-- Membership in the reshaped frame: exactly the rows hourRow h r for a
source row r and an hour column index h in 1..24. -/
lemma mem_ctd_body {df : List WideRow} {lr : LongRow} :
    lr ∈ ctd_body df ↔ ∃ h, 1 ≤ h ∧ h ≤ 24 ∧ ∃ r ∈ df, lr = hourRow h r := by
  simp only [ctd_body, mem_sortBy, List.mem_flatten, List.mem_map]
  constructor
  · rintro ⟨l, ⟨h, hh, rfl⟩, hl⟩
    rw [List.mem_range'_1] at hh
    rcases List.mem_map.mp hl with ⟨r, hr, rfl⟩
    exact ⟨h, hh.1, by omega, r, hr, rfl⟩
  · rintro ⟨h, h1, h2, r, hr, rfl⟩
    exact ⟨df.map (hourRow h), ⟨h, List.mem_range'_1.mpr ⟨h1, by omega⟩, rfl⟩,
      List.mem_map_of_mem _ hr⟩

/-! C1 -/

/-- C1: for every input frame with the contaminante, estacion, fecha and
h01..h24 columns, columns_to_datetime returns a frame with exactly 24
times as many rows, and its internal assert succeeds. -/
theorem C1_reshape_count_assert (df : List WideRow) :
    columns_to_datetime df = .ok (ctd_body df) ∧
    (ctd_body df).length = 24 * df.length :=
  ⟨columns_to_datetime_ok df, ctd_length df⟩

/-! C3 -/

/-- C3: for every input row and hour column index h in 1..24, the produced
timestamp has hour component h % 24, hence in [0, 23] with hour 24 mapping
to hour 0, and carries the year, month and day of the row's date; the
produced row is in the output of the reshape. -/
theorem C3_hour_components (df : List WideRow) (r : WideRow) (h : Nat)
    (hmem : r ∈ df) (h1 : 1 ≤ h) (h2 : h ≤ 24) :
    hourRow h r ∈ ctd_body df ∧
    (hourRow h r).dt.hour = h % 24 ∧
    (hourRow h r).dt.hour < 24 ∧
    (hourRow h r).dt.year = r.fecha.year ∧
    (hourRow h r).dt.month = r.fecha.month ∧
    (hourRow h r).dt.day = r.fecha.day :=
  ⟨mem_ctd_body.mpr ⟨h, h1, h2, r, hmem, rfl⟩, rfl,
    Nat.mod_lt _ (by omega), rfl, rfl, rfl⟩

/-- Witness for C3 at the wrap-around column h24 of a concrete row. -/
theorem C3_hour_components_witness :
    hourRow 24 wide_ex ∈ ctd_body [wide_ex] ∧
    (hourRow 24 wide_ex).dt.hour = 24 % 24 ∧
    (hourRow 24 wide_ex).dt.hour < 24 ∧
    (hourRow 24 wide_ex).dt.year = wide_ex.fecha.year ∧
    (hourRow 24 wide_ex).dt.month = wide_ex.fecha.month ∧
    (hourRow 24 wide_ex).dt.day = wide_ex.fecha.day :=
  C3_hour_components [wide_ex] wide_ex 24 (List.mem_singleton.mpr rfl)
    (by decide) (by decide)

/-! Helper lemmas on the cleaning pipeline. -/

/-- When the apply over the magnitud column succeeds, its output is the
row-wise dictionary image of the input. -/
lemma applyPollutants_eq_ok {rows : List RawRow} {tagged : List TaggedRow}
    (h : applyPollutants rows = .ok tagged) :
    tagged = rows.map (fun r => mkTagged r ((pollutants_dict r.magnitud).getD none)) := by
  induction rows generalizing tagged with
  | nil => simpa [applyPollutants] using h.symm
  | cons r rs ih =>
    rw [applyPollutants] at h
    cases hd : pollutants_dict r.magnitud with
    | none => rw [hd] at h; exact absurd h (by simp)
    | some c =>
      rw [hd] at h
      cases hrs : applyPollutants rs with
      | error e => rw [hrs] at h; exact absurd h (by simp [Except.map])
      | ok ts =>
        rw [hrs] at h
        simp only [Except.map, Except.ok.injEq] at h
        subst h
        simp [ih hrs, hd]

/-- When every magnitude code is in the dictionary, the apply raises no
KeyError. -/
lemma applyPollutants_total {rows : List RawRow}
    (h : ∀ r ∈ rows, pollutants_dict r.magnitud ≠ none) :
    ∃ tagged, applyPollutants rows = .ok tagged := by
  induction rows with
  | nil => exact ⟨[], rfl⟩
  | cons r rs ih =>
    rcases ih (fun x hx => h x (List.mem_cons_of_mem _ hx)) with ⟨ts, hts⟩
    cases hd : pollutants_dict r.magnitud with
    | none => exact absurd hd (h r (List.mem_cons_self _ _))
    | some c => exact ⟨mkTagged r c :: ts, by rw [applyPollutants, hd, hts]; rfl⟩

/-- A name in the range of pollutants_dict is one of the six used names. -/
lemma pollutants_dict_some {m : Int} {c : String}
    (h : pollutants_dict m = some (some c)) : c ∈ used.map Prod.snd := by
  unfold pollutants_dict at h
  cases hf : used.find? (fun p => p.1 == m) with
  | none =>
    rw [hf] at h
    by_cases hm : m ∈ not_used <;> simp [hm] at h
  | some p =>
    rw [hf] at h
    simp only [Option.some.injEq] at h
    exact h ▸ List.mem_map_of_mem Prod.snd (List.mem_of_find?_eq_some hf)

/-- Inverting a successful run of clean_data: the apply succeeded and the
output is the reshape of the filtered frame. -/
lemma clean_data_ok {csvs : List (List RawRow)} {out : List LongRow}
    (h : clean_data csvs = .ok out) :
    ∃ tagged, applyPollutants csvs.flatten = .ok tagged ∧
      out = ctd_body (filtered_rows tagged) := by
  unfold clean_data at h
  cases ha : applyPollutants csvs.flatten with
  | error e => rw [ha] at h; exact absurd h (by simp [Except.bind])
  | ok tagged =>
    rw [ha] at h
    simp only [Except.bind] at h
    rw [columns_to_datetime_ok] at h
    cases h
    exact ⟨tagged, rfl, rfl⟩

/-- Every row surviving the dropna and station filter keeps a station
other than 54 and a pollutant name taken from the dictionary. -/
lemma mem_filtered_rows {tagged : List TaggedRow} {r : WideRow}
    (h : r ∈ filtered_rows tagged) :
    r.estacion ≠ 54 ∧ ∃ t ∈ tagged, t.contaminante = some r.contaminante := by
  rw [filtered_rows, List.mem_filter] at h
  refine ⟨by simpa using h.2, ?_⟩
  rcases List.mem_filterMap.mp h.1 with ⟨t, ht, hmap⟩
  cases hc : t.contaminante with
  | none => rw [hc] at hmap; exact absurd hmap (by simp)
  | some c =>
    rw [hc] at hmap
    simp only [Option.map_some', Option.some.injEq] at hmap
    exact ⟨t, ht, by rw [hc, ← hmap]⟩

/-! C2 -/

/-- C2 counterexample: magnitude code 2 is not one of the six known codes,
yet clean_data does not drop its row silently - the dictionary lookup
raises a KeyError, so the run errors instead of completing. -/
theorem C2_cex_unmapped_code_raises :
    clean_data [[raw_code2]] = .error "KeyError: 2" := rfl

/-- C2 amended: when every magnitude code is a key of pollutants_dict (the
six known codes or the codes 7, 12, 20, 30, 35, 42, 43, 44 mapped to NaN),
clean_data completes without error and the rows of non-known codes are
dropped via the missing-value path: every output row carries one of the
six used pollutant names.  Codes outside the dictionary raise a KeyError
instead. -/
theorem C2_amended_dict_domain (csvs : List (List RawRow))
    (h : ∀ r ∈ csvs.flatten, pollutants_dict r.magnitud ≠ none) :
    ∃ out, clean_data csvs = .ok out ∧
      ∀ lr ∈ out, lr.contaminante ∈ used.map Prod.snd := by
  rcases applyPollutants_total h with ⟨tagged, hta⟩
  refine ⟨ctd_body (filtered_rows tagged), ?_, ?_⟩
  · unfold clean_data
    rw [hta]
    simp only [Except.bind]
    exact columns_to_datetime_ok _
  · intro lr hlr
    rcases mem_ctd_body.mp hlr with ⟨hh, _, _, r, hr, rfl⟩
    rcases (mem_filtered_rows hr).2 with ⟨t, ht, hct⟩
    rcases List.mem_map.mp (applyPollutants_eq_ok hta ▸ ht) with ⟨r0, _, hr0⟩
    have : (pollutants_dict r0.magnitud).getD none = some r.contaminante := by
      rw [← hct, ← hr0]; rfl
    cases hd : pollutants_dict r0.magnitud with
    | none => rw [hd] at this; exact absurd this (by simp)
    | some v =>
      rw [hd] at this
      simp only [Option.getD_some] at this
      exact pollutants_dict_some (by rw [hd, this]; rfl)

/-- Witness for C2 on a frame holding a known code and the NaN code 7. -/
theorem C2_amended_dict_domain_witness :
    (∀ r ∈ ([[raw_SO2, raw_code7]] : List (List RawRow)).flatten,
      pollutants_dict r.magnitud ≠ none) ∧
    ∃ out, clean_data [[raw_SO2, raw_code7]] = .ok out ∧
      ∀ lr ∈ out, lr.contaminante ∈ used.map Prod.snd :=
  ⟨by decide, C2_amended_dict_domain [[raw_SO2, raw_code7]] (by decide)⟩

/-! C5 -/

/-- C5: no row returned by clean_data has station code 54, the excluded
Avda. La Guardia station. -/
theorem C5_no_station_54 (csvs : List (List RawRow)) (out : List LongRow)
    (h : clean_data csvs = .ok out) : ∀ lr ∈ out, lr.estacion ≠ 54 := by
  rcases clean_data_ok h with ⟨tagged, _, rfl⟩
  intro lr hlr
  rcases mem_ctd_body.mp hlr with ⟨hh, _, _, r, hr, rfl⟩
  exact (mem_filtered_rows hr).1

/-- Witness for C5 on a frame holding a station-54 row and a station-3
row. -/
theorem C5_no_station_54_witness :
    clean_data [[raw_SO2, raw_st54]] = .ok (ctd_body [wide_SO2]) ∧
    (hourRow 1 wide_SO2).estacion ≠ 54 :=
  ⟨rfl, C5_no_station_54 [[raw_SO2, raw_st54]] (ctd_body [wide_SO2]) rfl
    (hourRow 1 wide_SO2) (by decide)⟩

/-! C4 -/

/-- C4 counterexample: one raw record whose station is 54 is read, yet
clean_data returns the empty frame: 0 is not 24 times the raw record
count 1, so the long-record count is not 24 times the count before
filtering. -/
theorem C4_cex_filtered_count :
    clean_data [[raw_st54]] = .ok [] ∧
    ([[raw_st54]] : List (List RawRow)).flatten.length = 1 ∧
    (0 : Nat) ≠ 24 * 1 :=
  ⟨rfl, rfl, by decide⟩

/-- C4 amended: the long-record count returned by clean_data equals 24
times the record count after filtering, that is, after the rows of
NaN-mapped codes and of station 54 are dropped. -/
theorem C4_amended_count (csvs : List (List RawRow)) (out : List LongRow)
    (h : clean_data csvs = .ok out) :
    ∃ tagged, applyPollutants csvs.flatten = .ok tagged ∧
      out.length = 24 * (filtered_rows tagged).length := by
  rcases clean_data_ok h with ⟨tagged, hta, rfl⟩
  exact ⟨tagged, hta, ctd_length _⟩

/-- Witness for C4 on a frame with one surviving and one filtered row. -/
theorem C4_amended_count_witness :
    clean_data [[raw_SO2, raw_st54]] = .ok (ctd_body [wide_SO2]) ∧
    ∃ tagged, applyPollutants ([[raw_SO2, raw_st54]] : List (List RawRow)).flatten = .ok tagged ∧
      (ctd_body [wide_SO2]).length = 24 * (filtered_rows tagged).length :=
  ⟨rfl, C4_amended_count [[raw_SO2, raw_st54]] (ctd_body [wide_SO2]) rfl⟩

/-! Helper lemmas on first-occurrence deduplication. -/

/-- Membership under the dedup fold, for any accumulator. -/
lemma foldl_uniq_mem [BEq α] [LawfulBEq α] (l : List α) (acc : List α) (a : α) :
    a ∈ l.foldl (fun acc x => if acc.contains x then acc else acc ++ [x]) acc ↔
      a ∈ acc ∨ a ∈ l := by
  induction l generalizing acc with
  | nil => simp
  | cons x xs ih =>
    rw [List.foldl_cons, ih]
    by_cases hc : acc.contains x = true
    · rw [if_pos hc]
      have hx : x ∈ acc := List.elem_iff.mp hc
      constructor
      · rintro (h | h)
        · exact Or.inl h
        · exact Or.inr (List.mem_cons_of_mem _ h)
      · rintro (h | h)
        · exact Or.inl h
        · rcases List.mem_cons.mp h with rfl | h
          · exact Or.inl hx
          · exact Or.inr h
    · rw [if_neg hc]
      simp only [List.mem_append, List.mem_singleton, List.mem_cons]
      tauto

/-- uniqueFirst keeps exactly the members of its input. -/
lemma mem_uniqueFirst [BEq α] [LawfulBEq α] (l : List α) (a : α) :
    a ∈ uniqueFirst l ↔ a ∈ l := by
  rw [uniqueFirst, foldl_uniq_mem]
  simp

/-- The dedup fold keeps the head of a nonempty accumulator. -/
lemma foldl_uniq_head? [BEq α] (l : List α) (acc : List α) (hacc : acc ≠ []) :
    (l.foldl (fun acc x => if acc.contains x then acc else acc ++ [x]) acc).head? =
      acc.head? := by
  induction l generalizing acc with
  | nil => rfl
  | cons x xs ih =>
    rw [List.foldl_cons]
    cases acc with
    | nil => exact absurd rfl hacc
    | cons b bs =>
      by_cases hc : (b :: bs).contains x = true
      · rw [if_pos hc, ih _ (by simp)]
      · rw [if_neg hc, List.cons_append, ih _ (by simp)]
        rfl

/-- uniqueFirst preserves the first element. -/
lemma uniqueFirst_head? [BEq α] (l : List α) : (uniqueFirst l).head? = l.head? := by
  cases l with
  | nil => rfl
  | cons x xs =>
    rw [uniqueFirst, List.foldl_cons]
    have : (([] : List α).contains x) = false := rfl
    rw [this]
    simp only [Bool.false_eq_true, if_false, List.nil_append]
    rw [foldl_uniq_head? xs [x] (by simp)]
    rfl

/-! C6 -/

/-- C6 counterexample: a cleaned frame spanning the two years 2019 and
2020 with a single pollutant yields exactly one file, not 2 x 1 files; the
single file is named with the first year 2019 and holds the rows of both
years, and its rows also keep the station column next to the
concentration. -/
theorem C6_cex_one_file_two_years :
    create_pollutant_csvs [no2_2019, no2_2020] =
      .ok [⟨"NO2", 2019, [(⟨2019, 1, 1, 0⟩, 3, 5), (⟨2020, 1, 1, 0⟩, 3, 5)]⟩] ∧
    (uniqueFirst ([no2_2019, no2_2020].map (fun r => r.dt.year))).length = 2 ∧
    (uniqueFirst ([no2_2019, no2_2020].map (fun r => r.contaminante))).length = 1 ∧
    (1 : Nat) ≠ 2 * 1 :=
  ⟨rfl, rfl, rfl, by decide⟩

/-- C6 amended: create_pollutant_csvs writes one CSV file per pollutant
present in the data - not one per pollutant per year - each indexed by
timestamp; every file is named with the year of the first row, and holds
all of that pollutant's rows across all years, keeping the station column
alongside the concentration column. -/
theorem C6_amended_one_file_per_pollutant (clean_df : List LongRow) (fs : List CsvFile)
    (h : create_pollutant_csvs clean_df = .ok fs) :
    fs.length = (uniqueFirst (clean_df.map (fun r => r.contaminante))).length ∧
    (∀ f ∈ fs, ∃ r0, clean_df.head? = some r0 ∧ f.year = r0.dt.year) ∧
    (∀ r ∈ clean_df, ∃ f ∈ fs, f.pollutant = r.contaminante ∧
      (r.dt, r.estacion, r.concentracion) ∈ f.rows) := by
  unfold create_pollutant_csvs at h
  cases hy : uniqueFirst (clean_df.map (fun r => r.dt.year)) with
  | nil => rw [hy] at h; exact absurd h (by simp)
  | cons year rest =>
    rw [hy] at h
    simp only [Except.ok.injEq] at h
    subst h
    have hhead : (clean_df.map (fun r => r.dt.year)).head? = some year := by
      rw [← uniqueFirst_head?, hy]; rfl
    refine ⟨List.length_map _ _, ?_, ?_⟩
    · intro f hf
      cases hdf : clean_df with
      | nil => rw [hdf] at hhead; exact absurd hhead (by simp)
      | cons r0 rs =>
        refine ⟨r0, rfl, ?_⟩
        rw [hdf] at hhead
        simp only [List.map_cons, List.head?_cons, Option.some.injEq] at hhead
        rcases List.mem_map.mp hf with ⟨p, _, rfl⟩
        exact hhead.symm
    · intro r hr
      refine ⟨_, List.mem_map_of_mem _
        ((mem_uniqueFirst _ _).mpr (List.mem_map_of_mem (fun x => x.contaminante) hr)), rfl, ?_⟩
      exact List.mem_map_of_mem _ (List.mem_filter.mpr ⟨hr, by simp⟩)

/-- The single file of the C6 instance. -/
def c6_files : List CsvFile :=
  [⟨"NO2", 2019, [(⟨2019, 1, 1, 0⟩, 3, 5), (⟨2020, 1, 1, 0⟩, 3, 5)]⟩]

/-- Witness for the amended C6 on the two-year one-pollutant frame. -/
theorem C6_amended_one_file_per_pollutant_witness :
    create_pollutant_csvs [no2_2019, no2_2020] = .ok c6_files ∧
    (c6_files.length =
      (uniqueFirst ([no2_2019, no2_2020].map (fun r => r.contaminante))).length ∧
    (∀ f ∈ c6_files, ∃ r0, ([no2_2019, no2_2020] : List LongRow).head? = some r0 ∧
      f.year = r0.dt.year) ∧
    (∀ r ∈ [no2_2019, no2_2020], ∃ f ∈ c6_files, f.pollutant = r.contaminante ∧
      (r.dt, r.estacion, r.concentracion) ∈ f.rows)) :=
  ⟨rfl, C6_amended_one_file_per_pollutant [no2_2019, no2_2020] c6_files rfl⟩

/-! Helper lemmas on the trajectory matrix. -/

/-- The loop builds len(X) - window slices. -/
lemma trajRows_length (X : List ℚ) (w : Nat) :
    (trajRows X w).length = X.length - w := by
  simp [trajRows]

/-- Slice i of the trajectory list is X[i:i+window]. -/
lemma trajRows_getElem? (X : List ℚ) (w i : Nat) (hi : i < X.length - w) :
    (trajRows X w)[i]? = some ((X.drop i).take w) := by
  simp [trajRows, List.getElem?_range hi]

/-- The transpose of a nonempty rectangular array has one row per column
of the original. -/
lemma npT_length (A : List (List ℚ)) : (npT A).length = (A.headD []).length := by
  cases A <;> simp [npT]

/-- Row j of the transpose collects entry j of every original row. -/
lemma npT_getElem? (A : List (List ℚ)) (hA : A ≠ []) (j : Nat)
    (hj : j < (A.headD []).length) :
    (npT A)[j]? = some (A.map (fun row => row.getD j 0)) := by
  cases A with
  | nil => exact absurd rfl hA
  | cons r rs =>
    simp only [List.headD_cons] at hj
    simp [npT, List.getElem?_range hj]

/-- Shape of a nonempty array: rows, then the length of the first row. -/
lemma npShape_ne_nil (A : List (List ℚ)) (hA : A ≠ []) :
    npShape A = [(A.length : Int), ((A.headD []).length : Int)] := by
  cases A with
  | nil => exact absurd rfl hA
  | cons r rs => rfl

/-! C9 -/

/-- C9: for window at least 1, when len(X) exceeds the window the
trajectory matrix after the transpose has shape (window, len(X) - window)
with entry (r, c) equal to X[r + c], so the shape assert of
traj_matrix_SVD succeeds; when len(X) is at most the window the assert
fails. -/
theorem C9_traj_matrix_shape_entries (X : List ℚ) (w : Nat) (hw : 1 ≤ w) :
    (w < X.length →
      trajAssert X w ∧
      ∀ r c, r < w → c < X.length - w →
        ((npT (trajRows X w)).getD r []).getD c 0 = X.getD (r + c) 0) ∧
    (X.length ≤ w → ¬ trajAssert X w) := by
  constructor
  · intro hwl
    have hcol : 0 < X.length - w := by omega
    have hAne : trajRows X w ≠ [] := by
      rw [← List.length_pos, trajRows_length]; exact hcol
    have hhead : (trajRows X w).headD [] = X.take w := by
      rw [List.headD_eq_head?_getD, List.head?_eq_getElem?,
        trajRows_getElem? X w 0 hcol, List.drop_zero]
      rfl
    have hheadlen : ((trajRows X w).headD []).length = w := by
      rw [hhead, List.length_take]
      omega
    have hTne : npT (trajRows X w) ≠ [] := by
      rw [← List.length_pos, npT_length, hheadlen]; omega
    constructor
    · rw [trajAssert, npShape_ne_nil _ hTne, npT_length, hheadlen,
        List.headD_eq_head?_getD, List.head?_eq_getElem?,
        npT_getElem? _ hAne 0 (by omega)]
      simp only [Option.getD_some, List.length_map, trajRows_length]
      have : ((X.length - w : Nat) : Int) = (X.length : Int) - (w : Int) := by omega
      rw [this]
    · intro r c hr hc
      have h1 : (npT (trajRows X w)).getD r [] =
          (trajRows X w).map (fun row => row.getD r 0) := by
        rw [List.getD_eq_getElem?_getD, npT_getElem? _ hAne r (by omega),
          Option.getD_some]
      rw [h1, List.getD_eq_getElem?_getD, List.getElem?_map,
        trajRows_getElem? X w c hc]
      simp only [Option.map_some', Option.getD_some]
      rw [List.getD_eq_getElem?_getD, List.getElem?_take, if_pos hr,
        List.getElem?_drop, List.getD_eq_getElem?_getD, Nat.add_comm c r]
  · intro hlw
    have hnil : trajRows X w = [] := by
      rw [← List.length_eq_zero, trajRows_length]
      omega
    rw [trajAssert, hnil]
    intro hcontra
    simp only [npT, npShape] at hcontra
    exact absurd (congrArg List.length hcontra) (by simp)

/-- Witness for C9 on X = [0, 1, 2, 3, 4] with window 2: the assert holds
and entry (1, 2) of the transposed trajectory matrix is X[3]. -/
theorem C9_traj_matrix_shape_entries_witness :
    trajAssert [0, 1, 2, 3, 4] 2 ∧
    ((npT (trajRows [0, 1, 2, 3, 4] 2)).getD 1 []).getD 2 0 =
      ([0, 1, 2, 3, 4] : List ℚ).getD (1 + 2) 0 :=
  ⟨((C9_traj_matrix_shape_entries [0, 1, 2, 3, 4] 2 (by decide)).1 (by decide)).1,
    ((C9_traj_matrix_shape_entries [0, 1, 2, 3, 4] 2 (by decide)).1 (by decide)).2
      1 2 (by decide) (by decide)⟩

/-! C10 -/

/-- C10: whenever reg_params_bf or reg_params_aft is None - including the
documented defaults - poincare_plot raises a TypeError at the initial
tuple unpacking, before any plotting action is performed, so the branch
guarded by the None checks can never run for a None argument. -/
theorem C10_none_params_raise (bf aft : List (ℚ × ℚ))
    (pb pa : Option (ℚ × ℚ)) (tb ta : Option String) (h : pb = none ∨ pa = none) :
    poincare_plot bf aft pb pa tb ta =
      ([], some "TypeError: cannot unpack non-iterable NoneType object") := by
  rcases h with rfl | rfl
  · rfl
  · cases pb with
    | none => rfl
    | some p =>
      obtain ⟨b0, b1⟩ := p
      rfl

/-- Witness for C10 at the default None value of reg_params_bf. -/
theorem C10_none_params_raise_witness :
    poincare_plot [] [] none (some (1, 2)) none none =
      ([], some "TypeError: cannot unpack non-iterable NoneType object") :=
  C10_none_params_raise [] [] none (some (1, 2)) none none (Or.inl rfl)

/-! Helper lemmas on the store model. -/

/-- True for the calls that allocate a new frame. -/
def isFreshOp : PdOp F → Bool
  | PdOp.fresh _ _ => true
  | _ => false

/-- Slot 0 of the store survives a run in which no call writes slot 0 in
place. -/
lemma runOps_getD_zero {F : Type} [Inhabited F] (ops : List (PdOp F)) (s : List F)
    (hs : s ≠ []) (h : ∀ op ∈ ops, notInplaceZero op = true) :
    (runOps ops s).getD 0 default = s.getD 0 default := by
  induction ops generalizing s with
  | nil => rfl
  | cons op rest ih =>
    cases op with
    | fresh srcs f =>
      rw [runOps, ih _ (by simp) (fun o ho => h o (List.mem_cons_of_mem _ ho))]
      exact List.getD_append _ _ _ 0 (by rwa [List.length_pos])
    | inplace t f =>
      have ht : t ≠ 0 := by
        have hop := h _ (List.mem_cons_self _ _)
        cases t with
        | zero => exact absurd hop (by simp [notInplaceZero])
        | succ n => simp
      rw [runOps, ih _ ?_ (fun o ho => h o (List.mem_cons_of_mem _ ho))]
      · simp only [List.getD_eq_getElem?_getD, List.getElem?_set_ne ht]
      · rw [← List.length_pos, List.length_set, List.length_pos]
        exact hs

/-- A run grows the store by one slot per allocating call. -/
lemma runOps_length {F : Type} [Inhabited F] (ops : List (PdOp F)) (s : List F) :
    (runOps ops s).length = s.length + ops.countP isFreshOp := by
  induction ops generalizing s with
  | nil => simp [runOps]
  | cons op rest ih =>
    cases op with
    | fresh srcs f =>
      rw [runOps, ih]
      simp [List.countP_cons, isFreshOp]
      omega
    | inplace t f =>
      rw [runOps, ih]
      simp [List.countP_cons, isFreshOp, List.length_set]

/-- No call of columns_to_datetime writes the caller's frame (slot 0) in
place: the in-place calls all target the per-hour frames at slots 2..25. -/
lemma ctd_ops_no_zero {F : Type} (reindex : List F → F) (select : Nat → List F → F)
    (assign_dt : Nat → F → F) (drop_fecha : F → F) (rename_conc : F → F)
    (concat : List F → F) (sort_dt : List F → F) (reset_index : List F → F) :
    ∀ op ∈ columns_to_datetime_ops reindex select assign_dt drop_fecha rename_conc
      concat sort_dt reset_index, notInplaceZero op = true := by
  intro op hop
  simp only [columns_to_datetime_ops, List.mem_cons, List.mem_append,
    List.mem_flatMap, List.mem_singleton, List.not_mem_nil, or_false] at hop
  rcases hop with (rfl | ⟨k, -, rfl | rfl | rfl | rfl⟩) | rfl | rfl | rfl <;> rfl

/-- The calls of columns_to_datetime allocate 28 frames. -/
lemma ctd_ops_countP {F : Type} (reindex : List F → F) (select : Nat → List F → F)
    (assign_dt : Nat → F → F) (drop_fecha : F → F) (rename_conc : F → F)
    (concat : List F → F) (sort_dt : List F → F) (reset_index : List F → F) :
    (columns_to_datetime_ops reindex select assign_dt drop_fecha rename_conc
      concat sort_dt reset_index).countP isFreshOp = 28 := rfl

/-! C8 -/

/-- C8: running the calls of columns_to_datetime over a store holding the
caller's dataframe at slot 0 leaves slot 0 exactly as it was, whatever
frame contents and per-call transformations are plugged in: the function
never mutates its argument, and its result is the newly allocated frame at
slot 28 of the 29-slot final store. -/
theorem C8_no_mutation_of_argument (F : Type) [Inhabited F]
    (reindex : List F → F) (select : Nat → List F → F) (assign_dt : Nat → F → F)
    (drop_fecha : F → F) (rename_conc : F → F) (concat : List F → F)
    (sort_dt : List F → F) (reset_index : List F → F) (df0 : F) :
    (runOps (columns_to_datetime_ops reindex select assign_dt drop_fecha rename_conc
      concat sort_dt reset_index) [df0]).getD 0 default = df0 ∧
    (runOps (columns_to_datetime_ops reindex select assign_dt drop_fecha rename_conc
      concat sort_dt reset_index) [df0]).length = 29 := by
  constructor
  · rw [runOps_getD_zero _ _ (by simp)
      (ctd_ops_no_zero reindex select assign_dt drop_fecha rename_conc concat
        sort_dt reset_index)]
    rfl
  · rw [runOps_length,
      ctd_ops_countP reindex select assign_dt drop_fecha rename_conc concat
        sort_dt reset_index]
    rfl

end Madrid
